import Mathlib

/-!
Shallow embedding of `src/server/controllers/user.account.controller.js`
(Website-FashionStore): register, login, token-verification handlers and
two programmatic helpers, backed by a document store of user accounts.

External collaborators that are third-party libraries (bcryptjs, jsonwebtoken)
are abstracted as function parameters of the handlers; collaborators that are
repository files not present under `src/` (response envelope helpers, the
UserAccount model, the validation module) are modelled from the spec, each
marked in its doc comment.
-/

namespace FashionStore

/-- The UserAccount record: `{ name, email, password }`, password stored hashed.
Modelled from the spec: the Mongoose model file `user.account.model.js` is not
under `src/`; the spec's DATA MODEL section gives exactly these three string
fields. -/
structure UserAccount where
  name : String
  email : String
  password : String
deriving Repr, DecidableEq

/-- A minimal JSON value model, enough to express the response bodies the
controller builds (objects with string keys, strings, numbers, booleans,
and null). -/
inductive Json where
  | null : Json
  | str (s : String) : Json
  | num (n : Nat) : Json
  | bool (b : Bool) : Json
  | obj (fields : List (String × Json)) : Json
deriving Repr

mutual

/-- Whether a JSON value contains key `k` anywhere (at any nesting depth). -/
def jsonHasKey (k : String) : Json → Bool
  | Json.null => false
  | Json.str _ => false
  | Json.num _ => false
  | Json.bool _ => false
  | Json.obj fields => fieldsHaveKey k fields

/-- Whether a field list contains key `k`, directly or inside a value. -/
def fieldsHaveKey (k : String) : List (String × Json) → Bool
  | [] => false
  | (k2, v) :: rest => k2 == k || jsonHasKey k v || fieldsHaveKey k rest

end

/-- JS object-rest destructuring `const { password: pass, ...rest } = doc`:
drop the fields whose key is `k`, keep the rest in order. -/
def objRemoveKey (k : String) (fields : List (String × Json)) : List (String × Json) :=
  fields.filter (fun p => p.1 ≠ k)

/-- The document (`validUser._doc`) of a stored user account, as a JSON
field list. -/
def userDoc (u : UserAccount) : List (String × Json) :=
  [("name", Json.str u.name), ("email", Json.str u.email),
   ("password", Json.str u.password)]

/-- An HTTP response as the controller produces it: a status code, the
cookies set on it (`name`, `value`, `httpOnly` flag), and a JSON body. -/
structure HttpResponse where
  status : Nat
  cookies : List (String × String × Bool)
  body : Json
deriving Repr

/-- Modelled from the spec: `serverResponse` from `response.controller.js`
(not under `src/`); the spec gives the uniform envelope shape
`{ success: boolean, status: number, data_or_message }`. -/
def serverResponse (success : Bool) (status : Nat) (data : Json) : Json :=
  Json.obj [("success", Json.bool success), ("status", Json.num status),
            ("data", data)]

/-- Modelled from the spec: `serverBadRequest` from `response.controller.js`
(not under `src/`): a 400 envelope carrying a message. -/
def serverBadRequest (msg : String) : HttpResponse :=
  ⟨400, [], serverResponse false 400 (Json.str msg)⟩

/-- Modelled from the spec: `serverNotFound` from `response.controller.js`
(not under `src/`): a 404 envelope carrying a message. -/
def serverNotFound (msg : String) : HttpResponse :=
  ⟨404, [], serverResponse false 404 (Json.str msg)⟩

/-- Modelled from the spec: `serverForbidden` from `response.controller.js`
(not under `src/`): a 403 envelope carrying a message. -/
def serverForbidden (msg : String) : HttpResponse :=
  ⟨403, [], serverResponse false 403 (Json.str msg)⟩

/-- Modelled from the spec: `serverOk(res)` with no payload from
`response.controller.js` (not under `src/`): a 200 success envelope with
no body data. -/
def serverOk : HttpResponse :=
  ⟨200, [], serverResponse true 200 Json.null⟩

/-- Modelled from the spec: `serverOk(res, msg)` with a message from
`response.controller.js` (not under `src/`). -/
def serverOkMsg (msg : String) : HttpResponse :=
  ⟨200, [], serverResponse true 200 (Json.str msg)⟩

/-- JS falsiness of a possibly-absent string (`!x`): true for
`undefined`/`null` (here `none`) and for the empty string. -/
def strFalsy : Option String → Bool
  | none => true
  | some s => s == ""

/-- The verification-failure kinds of the token library (`jsonwebtoken`):
expired, bad signature, malformed. The library itself is external; handlers
take the verifier as a parameter returning `none` on success or
`some` of a failure kind. -/
inductive JwtError where
  | expired : JwtError
  | badSignature : JwtError
  | malformed : JwtError
deriving Repr, DecidableEq

/-- `UserAccount.findOne({ email })`: first stored account with this email,
if any. Modelled from the spec: the store supports lookup-by-email. -/
def findOneByEmail (db : List UserAccount) (email : String) : Option UserAccount :=
  db.find? (fun u => u.email == email)

/-- Modelled from the spec: `newAccountValidation` from
`user.account.validation.js` (not under `src/`); the spec says it checks
name/email/password format/length rules and yields `true` (here `none`)
or a human-readable error string. Modelled as minimal length rules: each
field must be non-empty. -/
def newAccountValidation (name email password : String) : Option String :=
  if name == "" then some "Name is required"
  else if email == "" then some "Email is required"
  else if password == "" then some "Password is required"
  else none

/-- `createUser` (Register): validate, reject duplicate email, hash the
password with cost factor 10 via the hasher `hash`, persist, respond 200.
Returns the response together with the store after the handler ran. -/
def createUser (validation : String → String → String → Option String)
    (hash : String → Nat → String)
    (db : List UserAccount) (name email password : String) :
    HttpResponse × List UserAccount :=
  match validation name email password with
  | some msg => (serverBadRequest msg, db)
  | none =>
    match findOneByEmail db email with
    | some _ => (serverBadRequest "Email already exists", db)
    | none =>
      let hashPassword := hash password 10
      (serverOk, db ++ [⟨name, email, hashPassword⟩])

/-- A login request body: `email` and `password`, each possibly absent. -/
structure LoginRequest where
  email : Option String
  password : Option String
deriving Repr, DecidableEq

/-- `loginUser` (Login): missing fields → 400; unknown email → 404; hash
mismatch (`compareSync`) → 401 built directly from the envelope; on match
sign a token over `{ email }` with the process-wide secret and expiry
`"1h"`, set it as the http-only `access_token` cookie, and respond 200 with
the account minus its password field. Returns the response together with
the store after the handler ran. -/
def loginUser (compareSync : String → String → Bool)
    (sign : Json → String → String → String)
    (secret : String)
    (db : List UserAccount) (req : LoginRequest) :
    HttpResponse × List UserAccount :=
  if strFalsy req.email || strFalsy req.password then
    (serverBadRequest "Email and password are required", db)
  else
    match findOneByEmail db (req.email.getD "") with
    | none => (serverNotFound "User not found", db)
    | some validUser =>
      if ! compareSync (req.password.getD "") validUser.password then
        (⟨401, [], serverResponse false 401 (Json.str "Incorrect password")⟩, db)
      else
        let token := sign (Json.obj [("email", Json.str validUser.email)]) secret "1h"
        (⟨200, [("access_token", token, true)],
          serverResponse true 200
            (Json.obj [("user", Json.obj (objRemoveKey "password" (userDoc validUser)))])⟩,
         db)

/-- `isTokenOk` (Verify-Token, request-bound): reads the `access_token`
cookie; missing → 400 "Empty token!"; verification failure → 403; success
→ 200 "Token accepted". `verify` is the token library's verifier against
the process-wide secret. -/
def isTokenOk (verify : String → String → Option JwtError)
    (secret : String) (cookie : Option String) : HttpResponse :=
  if strFalsy cookie then serverBadRequest "Empty token!"
  else
    match verify (cookie.getD "") secret with
    | some _ => serverForbidden "Invalid or expired token"
    | none => serverOkMsg "Token accepted"

/-- `validateClientToken` (Verify-Token, value): logs the raw token
(`console.log(token)`), then fails with "Empty Token" on an absent/empty
token, otherwise swallows every verification error into a boolean. The
first component is the log of the call; the second its outcome. -/
def validateClientToken (verify : String → String → Option JwtError)
    (secret : String) (token : Option String) :
    List (Option String) × Except String Bool :=
  ([token],
    if strFalsy token then Except.error "Empty Token"
    else
      match verify (token.getD "") secret with
      | none => Except.ok true
      | some _ => Except.ok false)

/-- Well-formedness of a store identifier. Modelled from the spec: the
underlying store surfaces an error for malformed identifiers only; a
Mongoose ObjectId is 24 lowercase hex characters. -/
def isValidObjectId (s : String) : Bool :=
  s.length == 24 &&
    s.toList.all (fun c => c.isDigit || ("abcdef".toList.contains c))

/-- `UserAccount.findById`: the stored account with this identifier,
unfiltered; `none` when absent; an error only for a malformed identifier.
Modelled from the spec: the store supports lookup-by-id. -/
def findById (db : List (String × UserAccount)) (id : String) :
    Except String (Option UserAccount) :=
  if isValidObjectId id then
    Except.ok ((db.find? (fun p => p.1 == id)).map (fun p => p.2))
  else Except.error "CastError"

/-- `isUserExist` (Find-User-By-Id): returns whatever `findById` yields. -/
def isUserExist (db : List (String × UserAccount)) (user_id : String) :
    Except String (Option UserAccount) :=
  findById db user_id

/-! Concrete instances of the external collaborators, used to exercise the
theorems on closed inputs. -/

/-- A concrete stand-in for `bcryptjs.hash`: tags the plaintext with the
cost factor. -/
def demoHash (pw : String) (cost : Nat) : String :=
  "$2a$" ++ toString cost ++ "$" ++ pw

/-- A concrete stand-in for `bcryptjs.compareSync`, matching `demoHash` at
cost factor 10. -/
def demoCompare (pw h : String) : Bool :=
  h == demoHash pw 10

/-- A concrete stand-in for `jwt.sign`. -/
def demoSign (_payload : Json) (secret expiry : String) : String :=
  "tok." ++ secret ++ "." ++ expiry

/-- A concrete stand-in for `jwt.verify`: accepts exactly the token
`"goodtok"` under the secret `"secret"`. -/
def demoVerify (t s : String) : Option JwtError :=
  if t == "goodtok" && s == "secret" then none else some JwtError.badSignature

/-- A one-account store used by the closed-input theorems. -/
def db0 : List UserAccount :=
  [⟨"Alice", "a@x.com", demoHash "Secret123!" 10⟩]

/-! Theorems -/

/-- C1: no HTTP response body of any handler contains a `password` key at
any depth; moreover the register and verify bodies carry no account data:
they contain no `user` and no `email` key either, while the successful
login body carries the account only with its password field removed. -/
theorem no_password_in_any_response_body
    (validation : String → String → String → Option String)
    (hash : String → Nat → String)
    (compareSync : String → String → Bool)
    (sign : Json → String → String → String)
    (verify : String → String → Option JwtError)
    (secret : String) (db : List UserAccount)
    (name email password : String) (req : LoginRequest) (cookie : Option String) :
    jsonHasKey "password" (createUser validation hash db name email password).1.body = false ∧
    jsonHasKey "user" (createUser validation hash db name email password).1.body = false ∧
    jsonHasKey "email" (createUser validation hash db name email password).1.body = false ∧
    jsonHasKey "password" (loginUser compareSync sign secret db req).1.body = false ∧
    jsonHasKey "password" (isTokenOk verify secret cookie).body = false ∧
    jsonHasKey "user" (isTokenOk verify secret cookie).body = false ∧
    jsonHasKey "email" (isTokenOk verify secret cookie).body = false := by
  refine ⟨?_, ?_, ?_, ?_, ?_, ?_, ?_⟩ <;>
    first
      | (unfold createUser
         repeat' split
         all_goals rfl)
      | (unfold loginUser
         repeat' split
         all_goals rfl)
      | (unfold isTokenOk
         repeat' split
         all_goals rfl)

/-- C2: `validateClientToken` fails with "Empty Token" exactly on an
absent/empty token; on every non-empty token it never fails and returns the
boolean of whether verification succeeds, collapsing all failure kinds. -/
theorem validateClientToken_contract
    (verify : String → String → Option JwtError) (secret : String)
    (token : Option String) :
    ((validateClientToken verify secret token).2 = Except.error "Empty Token" ↔
      strFalsy token = true) ∧
    (strFalsy token = false →
      (validateClientToken verify secret token).2 =
        Except.ok ((verify (token.getD "") secret).isNone)) := by
  unfold validateClientToken
  rcases h : strFalsy token with _ | _
  · rcases hv : verify (token.getD "") secret with _ | e <;> simp [h, hv]
  · simp [h]

/-- Witness for C2 at a concrete verifier, secret and non-empty token. -/
theorem validateClientToken_contract_witness :
    ((validateClientToken demoVerify "secret" (some "goodtok")).2 =
        Except.error "Empty Token" ↔ strFalsy (some "goodtok") = true) ∧
    (strFalsy (some "goodtok") = false →
      (validateClientToken demoVerify "secret" (some "goodtok")).2 =
        Except.ok ((demoVerify ((some "goodtok").getD "") "secret").isNone)) :=
  validateClientToken_contract demoVerify "secret" (some "goodtok")

/-- C10: `validateClientToken` logs the raw token on every call — the log
holds exactly the given token, also when the call goes on to fail with the
"Empty Token" error on an absent or empty token. -/
theorem validateClientToken_always_logs
    (verify : String → String → Option JwtError) (secret : String)
    (token : Option String) :
    (validateClientToken verify secret token).1 = [token] ∧
    (validateClientToken verify secret none).1 = [none] ∧
    (validateClientToken verify secret (some "")).1 = [some ""] :=
  ⟨rfl, rfl, rfl⟩

/-- C3 counterexample: with the email "a@x.com" already taken in `db0`, a
register request whose name fails validation is answered with the validation
message, not with "Email already exists" — the duplicate-email 400 is NOT
returned regardless of the other field values, because validation runs
first. -/
theorem createUser_duplicate_email_counterexample :
    (findOneByEmail db0 "a@x.com").isSome = true ∧
    (createUser newAccountValidation demoHash db0 "" "a@x.com" "Other456!").1 =
      serverBadRequest "Name is required" ∧
    (createUser newAccountValidation demoHash db0 "" "a@x.com" "Other456!").1.body ≠
      (serverBadRequest "Email already exists").body := by
  refine ⟨rfl, rfl, ?_⟩
  intro h
  simp only [createUser, newAccountValidation, serverBadRequest, serverResponse,
    db0] at h
  simp at h

/-- C3 (amended): for every register request that passes validation and whose
email already belongs to an existing UserAccount, Register responds 400
"Email already exists", regardless of the other field values, and leaves the
store unchanged. -/
theorem createUser_duplicate_email
    (validation : String → String → String → Option String)
    (hash : String → Nat → String)
    (db : List UserAccount) (name email password : String)
    (hval : validation name email password = none)
    (hdup : (findOneByEmail db email).isSome = true) :
    createUser validation hash db name email password =
      (serverBadRequest "Email already exists", db) := by
  unfold createUser
  rw [hval]
  rcases hfind : findOneByEmail db email with _ | u
  · rw [hfind] at hdup
    simp at hdup
  · rfl

/-- Witness for C3's amended theorem at a concrete store and request. -/
theorem createUser_duplicate_email_witness :
    newAccountValidation "Alice2" "a@x.com" "Other456!" = none ∧
    (findOneByEmail db0 "a@x.com").isSome = true ∧
    createUser newAccountValidation demoHash db0 "Alice2" "a@x.com" "Other456!" =
      (serverBadRequest "Email already exists", db0) :=
  ⟨rfl, rfl,
   createUser_duplicate_email newAccountValidation demoHash db0
     "Alice2" "a@x.com" "Other456!" rfl rfl⟩

/-- C4: Login's failure branches, in checking order, each an immediate
response leaving the store unchanged: missing email or password → 400
"Email and password are required"; unknown email → 404 "User not found";
hash mismatch → a directly built status-401 response carrying the envelope
with "Incorrect password". -/
theorem loginUser_failure_branches
    (compareSync : String → String → Bool) (sign : Json → String → String → String)
    (secret : String) (db : List UserAccount) (req : LoginRequest) :
    ((strFalsy req.email || strFalsy req.password) = true →
      loginUser compareSync sign secret db req =
        (serverBadRequest "Email and password are required", db)) ∧
    ((strFalsy req.email || strFalsy req.password) = false →
      findOneByEmail db (req.email.getD "") = none →
      loginUser compareSync sign secret db req =
        (serverNotFound "User not found", db)) ∧
    (∀ u : UserAccount, (strFalsy req.email || strFalsy req.password) = false →
      findOneByEmail db (req.email.getD "") = some u →
      compareSync (req.password.getD "") u.password = false →
      loginUser compareSync sign secret db req =
        (⟨401, [], serverResponse false 401 (Json.str "Incorrect password")⟩, db)) := by
  refine ⟨?_, ?_, ?_⟩
  · intro hmiss
    simp [loginUser, hmiss]
  · intro hmiss hfind
    simp [loginUser, hmiss, hfind]
  · intro u hmiss hfind hpw
    simp [loginUser, hmiss, hfind, hpw]

/-- Witness for C4: each failure branch exercised on a concrete store and
request. -/
theorem loginUser_failure_branches_witness :
    loginUser demoCompare demoSign "secret" db0 ⟨some "a@x.com", none⟩ =
      (serverBadRequest "Email and password are required", db0) ∧
    loginUser demoCompare demoSign "secret" db0 ⟨some "b@x.com", some "pw"⟩ =
      (serverNotFound "User not found", db0) ∧
    loginUser demoCompare demoSign "secret" db0 ⟨some "a@x.com", some "wrong"⟩ =
      (⟨401, [], serverResponse false 401 (Json.str "Incorrect password")⟩, db0) :=
  ⟨(loginUser_failure_branches demoCompare demoSign "secret" db0
      ⟨some "a@x.com", none⟩).1 rfl,
   (loginUser_failure_branches demoCompare demoSign "secret" db0
      ⟨some "b@x.com", some "pw"⟩).2.1 rfl rfl,
   (loginUser_failure_branches demoCompare demoSign "secret" db0
      ⟨some "a@x.com", some "wrong"⟩).2.2
      ⟨"Alice", "a@x.com", demoHash "Secret123!" 10⟩ rfl rfl (by decide)⟩

/-- C5: on a successful login the handler responds 200, sets the signed
token — payload exactly `\x7b email: user's email \x7d`, expiry "1h",
process-wide secret — as the http-only `access_token` cookie, and the body
carries the account with only its password field removed. -/
theorem loginUser_success
    (compareSync : String → String → Bool) (sign : Json → String → String → String)
    (secret : String) (db : List UserAccount) (req : LoginRequest)
    (u : UserAccount)
    (hfields : (strFalsy req.email || strFalsy req.password) = false)
    (hfind : findOneByEmail db (req.email.getD "") = some u)
    (hpw : compareSync (req.password.getD "") u.password = true) :
    loginUser compareSync sign secret db req =
      (⟨200,
        [("access_token",
          sign (Json.obj [("email", Json.str u.email)]) secret "1h", true)],
        serverResponse true 200
          (Json.obj [("user",
            Json.obj [("name", Json.str u.name), ("email", Json.str u.email)])])⟩,
       db) := by
  simp [loginUser, hfields, hfind, hpw, objRemoveKey, userDoc]

/-- Witness for C5: a concrete successful login. -/
theorem loginUser_success_witness :
    loginUser demoCompare demoSign "secret" db0 ⟨some "a@x.com", some "Secret123!"⟩ =
      (⟨200,
        [("access_token",
          demoSign (Json.obj [("email", Json.str "a@x.com")]) "secret" "1h", true)],
        serverResponse true 200
          (Json.obj [("user",
            Json.obj [("name", Json.str "Alice"), ("email", Json.str "a@x.com")])])⟩,
       db0) :=
  loginUser_success demoCompare demoSign "secret" db0
    ⟨some "a@x.com", some "Secret123!"⟩
    ⟨"Alice", "a@x.com", demoHash "Secret123!" 10⟩ rfl rfl (by decide)

/-- C9: Login never writes to the store — for every request and outcome the
store comes back unchanged — and it sets no cookie except on the 200
success response. -/
theorem loginUser_no_store_write
    (compareSync : String → String → Bool) (sign : Json → String → String → String)
    (secret : String) (db : List UserAccount) (req : LoginRequest) :
    (loginUser compareSync sign secret db req).2 = db ∧
    ((loginUser compareSync sign secret db req).1.cookies = [] ∨
      (loginUser compareSync sign secret db req).1.status = 200) := by
  constructor <;>
    (unfold loginUser
     repeat' split) <;>
    first
      | rfl
      | (left; rfl)
      | (right; rfl)

/-- C6: a register request that passes validation with an unused email
hashes the password at cost factor 10, persists the new UserAccount whose
password field holds that hash, and responds 200 with a success envelope
carrying no body data; whenever the hasher is non-trivial on this input,
the persisted password is not the plaintext. -/
theorem createUser_success
    (validation : String → String → String → Option String)
    (hash : String → Nat → String)
    (db : List UserAccount) (name email password : String)
    (hval : validation name email password = none)
    (hdup : findOneByEmail db email = none) :
    createUser validation hash db name email password =
      (serverOk, db ++ [⟨name, email, hash password 10⟩]) ∧
    (hash password 10 ≠ password →
      ∀ u : UserAccount,
        u ∈ (createUser validation hash db name email password).2 →
        u ∉ db → u.password ≠ password) := by
  have hrun : createUser validation hash db name email password =
      (serverOk, db ++ [⟨name, email, hash password 10⟩]) := by
    simp [createUser, hval, hdup]
  refine ⟨hrun, ?_⟩
  intro hne u hu hnotdb
  rw [hrun] at hu
  rcases List.mem_append.mp hu with hin | hin
  · exact absurd hin hnotdb
  · rcases List.mem_singleton.mp hin with rfl
    simpa using hne

/-- Witness for C6: a concrete fresh registration. -/
theorem createUser_success_witness :
    createUser newAccountValidation demoHash [] "Alice" "a@x.com" "Secret123!" =
      (serverOk, [] ++ [⟨"Alice", "a@x.com", demoHash "Secret123!" 10⟩]) ∧
    (demoHash "Secret123!" 10 ≠ "Secret123!" →
      ∀ u : UserAccount,
        u ∈ (createUser newAccountValidation demoHash [] "Alice" "a@x.com" "Secret123!").2 →
        u ∉ ([] : List UserAccount) → u.password ≠ "Secret123!") :=
  createUser_success newAccountValidation demoHash [] "Alice" "a@x.com" "Secret123!"
    rfl rfl

/-- C7: the request-bound token check: absent cookie → 400 "Empty token!";
cookie failing signature/expiry verification → 403 "Invalid or expired
token"; verified cookie → 200 "Token accepted". -/
theorem isTokenOk_branches
    (verify : String → String → Option JwtError) (secret : String)
    (cookie : Option String) :
    (strFalsy cookie = true →
      isTokenOk verify secret cookie = serverBadRequest "Empty token!") ∧
    (∀ e : JwtError, strFalsy cookie = false →
      verify (cookie.getD "") secret = some e →
      isTokenOk verify secret cookie = serverForbidden "Invalid or expired token") ∧
    (strFalsy cookie = false →
      verify (cookie.getD "") secret = none →
      isTokenOk verify secret cookie = serverOkMsg "Token accepted") := by
  refine ⟨?_, ?_, ?_⟩
  · intro hmiss
    simp [isTokenOk, hmiss]
  · intro e hmiss hver
    simp [isTokenOk, hmiss, hver]
  · intro hmiss hver
    simp [isTokenOk, hmiss, hver]

/-- Witness for C7: each verify-token branch exercised on a concrete
verifier. -/
theorem isTokenOk_branches_witness :
    isTokenOk demoVerify "secret" none = serverBadRequest "Empty token!" ∧
    isTokenOk demoVerify "secret" (some "badtok") =
      serverForbidden "Invalid or expired token" ∧
    isTokenOk demoVerify "secret" (some "goodtok") = serverOkMsg "Token accepted" :=
  ⟨(isTokenOk_branches demoVerify "secret" none).1 rfl,
   (isTokenOk_branches demoVerify "secret" (some "badtok")).2.1
     JwtError.badSignature rfl rfl,
   (isTokenOk_branches demoVerify "secret" (some "goodtok")).2.2 rfl rfl⟩

/-- C8: for every well-formed identifier, Find-User-By-Id returns the
matching stored UserAccount unfiltered when one exists, and an absent
result — not an error — when none does. -/
theorem isUserExist_contract
    (db : List (String × UserAccount)) (id : String)
    (hid : isValidObjectId id = true) :
    (∀ i (u : UserAccount), db.find? (fun p => p.1 == id) = some (i, u) →
      isUserExist db id = Except.ok (some u)) ∧
    (db.find? (fun p => p.1 == id) = none →
      isUserExist db id = Except.ok none) := by
  constructor
  · intro i u hfind
    simp [isUserExist, findById, hid, hfind]
  · intro hfind
    simp [isUserExist, findById, hid, hfind]

/-- A well-formed store identifier used by the closed-input theorems. -/
def oid0 : String := "0123456789abcdef01234567"

/-- Another well-formed identifier, bound to no stored account. -/
def oid1 : String := "aaaaaaaaaaaaaaaaaaaaaaaa"

/-- A one-account identifier-keyed store used by the closed-input theorems. -/
def dbid0 : List (String × UserAccount) :=
  [(oid0, ⟨"Alice", "a@x.com", demoHash "Secret123!" 10⟩)]

/-- Witness for C8: a hit returns the full stored account, password field
included; a well-formed miss returns an absent result, not an error. -/
theorem isUserExist_contract_witness :
    isUserExist dbid0 oid0 =
      Except.ok (some ⟨"Alice", "a@x.com", demoHash "Secret123!" 10⟩) ∧
    isUserExist dbid0 oid1 = Except.ok none :=
  ⟨(isUserExist_contract dbid0 oid0 (by decide)).1 oid0
     ⟨"Alice", "a@x.com", demoHash "Secret123!" 10⟩ (by decide),
   (isUserExist_contract dbid0 oid1 (by decide)).2 (by decide)⟩

end FashionStore
